import Mathlib

/-!
Verification of the grid-construction core of the `bores` reservoir-modelling
library (`src/bores/grids/base.py` and `src/bores/grids/saturation.py`).

Modelling conventions used throughout:
* floating-point numbers are modelled by `ℚ` wherever the code computes with
  finite values; where non-finite values (NaN, ±∞) matter to a claim they are
  modelled explicitly (`Option ℚ` for porosity, the `FV` type for the
  coarsening routines);
* numpy arrays are modelled by (nested) lists, axis 0 outermost;
* the library's single error kind `ValidationError` is one constructor of an
  error type; failures that are *not* `ValidationError` in the code (for
  example an `IndexError` or a shape-unpacking failure) get their own
  constructor.
-/

namespace Bores

/-! ### Elevation / depth builders (`_compute_elevation_downward`,
`_compute_elevation_upward`, `build_depth_grid`, `build_elevation_grid`) -/

/-- One vertical column of the top-down scan of `_compute_elevation_downward`:
having already produced a cell with centre `prevD` and thickness `prevT`, layer
`k` gets centre `prevD + prevT / 2 + t k / 2`. -/
def depthScan (prevD prevT : ℚ) : List ℚ → List ℚ
  | [] => []
  | t :: ts => (prevD + prevT / 2 + t / 2) :: depthScan (prevD + prevT / 2 + t / 2) t ts

/-- Cell-centre depths of one vertical column (fixed areal `(i, j)`), from
`_compute_elevation_downward`: layer 0 centre is `t 0 / 2`, then the scan. -/
def depthCol : List ℚ → List ℚ
  | [] => []
  | t :: ts => (t / 2) :: depthScan (t / 2) t ts

/-- Cell-centre elevations of one vertical column, from
`_compute_elevation_upward`: the bottom layer has centre `t (nz-1) / 2` and the
loop walks upward with the same recurrence, i.e. the top-down scan applied to
the reversed column, read back in original order. -/
def elevCol (ts : List ℚ) : List ℚ := (depthCol ts.reverse).reverse

/-- A numpy array of rank 1, 2 or 3 (ranks used by the grid builders). -/
inductive NDGrid where
  | g1 : List ℚ → NDGrid
  | g2 : List (List ℚ) → NDGrid
  | g3 : List (List (List ℚ)) → NDGrid
deriving DecidableEq

/-- Failure kinds of the grid builders: the library's `ValidationError`, and
the non-`ValidationError` exception raised when the elevation kernels unpack
`thickness_grid.shape` into exactly three components on a non-3-D input. -/
inductive GridError where
  | validationError
  | shapeUnpackError
deriving DecidableEq

/-- Direction argument of `_build_elevation_grid` (the public wrappers fix it,
so the code's membership check on the string never fails). -/
inductive ElevDirection where
  | downward
  | upward
deriving DecidableEq

/-- `_build_elevation_grid`: dispatches to the numba kernels; both kernels
start with `_, _, nz = thickness_grid.shape`, which fails on ranks ≠ 3 with an
exception that is not a `ValidationError`. -/
def buildElevationGridAux (direction : ElevDirection) (g : NDGrid) :
    Except GridError NDGrid :=
  match g with
  | .g3 planes =>
      match direction with
      | .downward => .ok (.g3 (planes.map (fun plane => plane.map depthCol)))
      | .upward => .ok (.g3 (planes.map (fun plane => plane.map elevCol)))
  | _ => .error .shapeUnpackError

/-- `build_depth_grid`: public wrapper, direction `"downward"`. -/
def build_depth_grid (g : NDGrid) : Except GridError NDGrid :=
  buildElevationGridAux .downward g

/-- `build_elevation_grid`: public wrapper, direction `"upward"`. -/
def build_elevation_grid (g : NDGrid) : Except GridError NDGrid :=
  buildElevationGridAux .upward g

/-- Reads entry `(i, j, k)` of a successful 3-D grid result (0 otherwise);
used to state concrete facts about builder outputs. -/
def resultAt3 (r : Except GridError NDGrid) (i j k : ℕ) : ℚ :=
  match r with
  | .ok (.g3 planes) => (((planes.getD i []).getD j []).getD k 0)
  | _ => 0

/-! ### Ghost-cell mask (`get_pad_mask`) -/

/-- Value of the boolean array produced by `get_pad_mask(grid_shape, pad_width)`
at multi-index `ix` of the padded array.  The source builds one slice per axis
of the padded shape — `slice(0, w)` on axis 0, `slice(-w, None)` on axis 1,
`slice(w, -w)` on every later axis — and sets `mask[slices] = True`, so a cell
is `True` exactly when *every* axis index lies in its axis's slice. -/
def get_pad_mask_val (grid_shape : List ℕ) (pad_width : ℕ) (ix : List ℕ) : Bool :=
  let padded := grid_shape.map (fun dim => dim + 2 * pad_width)
  (List.zip padded.enum ix).all fun p =>
    let axis := p.1.1
    let size := p.1.2
    let i := p.2
    if axis = 0 then decide (i < pad_width)
    else if axis = 1 then decide (size - pad_width ≤ i ∧ i < size)
    else decide (pad_width ≤ i ∧ i < size - pad_width)

/-- Spec-side notion the mask is documented to compute: a *ghost cell* of the
padded array, i.e. a cell lying within `pad_width` of some boundary. -/
def isGhostCell (grid_shape : List ℕ) (pad_width : ℕ) (ix : List ℕ) : Bool :=
  let padded := grid_shape.map (fun dim => dim + 2 * pad_width)
  (List.zip padded ix).any fun p => decide (p.2 < pad_width ∨ p.1 - pad_width ≤ p.2)

/-! ### Layered grid builder (`build_layered_grid`) -/

/-- Layering orientation.  Modelled from the spec: `orientation ∈ {X, Y, Z}`
(the `Orientation` enum lives in `bores/types.py`, which is not part of the
visible sources). -/
inductive Orientation where
  | X
  | Y
  | Z
deriving DecidableEq

/-- A 2-D or 3-D grid shape (the shapes the claim quantifies over). -/
inductive GridShape where
  | s2 (nx ny : ℕ)
  | s3 (nx ny nz : ℕ)
deriving DecidableEq

/-- Extent along axis 0 (`grid_shape[0]`). -/
def GridShape.dim0 : GridShape → ℕ
  | .s2 nx _ => nx
  | .s3 nx _ _ => nx

/-- Extent along axis 1 (`grid_shape[1]`). -/
def GridShape.dim1 : GridShape → ℕ
  | .s2 _ ny => ny
  | .s3 _ ny _ => ny

/-- Failure kinds of `build_layered_grid`: the `ValidationError` raises, and
the numpy `IndexError` ("too many indices") raised by the slice assignment
`grid[i, :, :] = v` when the grid is 2-D. -/
inductive LayeredError where
  | validationError
  | indexError
deriving DecidableEq

/-- `build_layered_grid(grid_shape, layer_values, orientation)`; the fill
loops write `grid[i, :, :]`, `grid[:, j, :]`, `grid[:, :, k]`, which on a 2-D
array raise an `IndexError` at the first iteration. -/
def build_layered_grid (grid_shape : GridShape) (layer_values : List ℚ)
    (orientation : Orientation) : Except LayeredError NDGrid :=
  if layer_values.length < 1 then .error .validationError
  else
    match orientation with
    | .X =>
        if layer_values.length ≠ grid_shape.dim0 then .error .validationError
        else
          match grid_shape with
          | .s3 nx ny nz =>
              .ok (.g3 ((List.range nx).map fun i =>
                List.replicate ny (List.replicate nz (layer_values.getD i 0))))
          | .s2 _ _ => .error .indexError
    | .Y =>
        if layer_values.length ≠ grid_shape.dim1 then .error .validationError
        else
          match grid_shape with
          | .s3 nx ny nz =>
              .ok (.g3 ((List.range nx).map fun _ =>
                (List.range ny).map fun j =>
                  List.replicate nz (layer_values.getD j 0)))
          | .s2 _ _ => .error .indexError
    | .Z =>
        match grid_shape with
        | .s2 _ _ => .error .validationError
        | .s3 nx ny nz =>
            if layer_values.length ≠ nz then .error .validationError
            else
              .ok (.g3 ((List.range nx).map fun _ =>
                (List.range ny).map fun _ =>
                  (List.range nz).map fun k => layer_values.getD k 0))

/-! ### Lemmas about one depth/elevation column -/

theorem depthScan_length (prevD prevT : ℚ) (ts : List ℚ) :
    (depthScan prevD prevT ts).length = ts.length := by
  induction ts generalizing prevD prevT with
  | nil => rfl
  | cons t ts ih => simp [depthScan, ih]

theorem depthCol_length (ts : List ℚ) : (depthCol ts).length = ts.length := by
  cases ts with
  | nil => rfl
  | cons t ts => simp [depthCol, depthScan_length]

theorem depthScan_getD (ts : List ℚ) (prevD prevT : ℚ) (k : ℕ) (hk : k < ts.length) :
    (depthScan prevD prevT ts).getD k 0
      = prevD + prevT / 2 + (ts.take k).sum + ts.getD k 0 / 2 := by
  induction ts generalizing prevD prevT k with
  | nil => simp at hk
  | cons t ts ih =>
    cases k with
    | zero => simp [depthScan]
    | succ k =>
      have hk2 : k < ts.length := by simpa using hk
      simp only [depthScan, List.getD_cons_succ, List.take_succ_cons, List.sum_cons]
      rw [ih _ _ k hk2]
      ring

theorem depthCol_getD (col : List ℚ) (k : ℕ) (hk : k < col.length) :
    (depthCol col).getD k 0 = (col.take k).sum + col.getD k 0 / 2 := by
  cases col with
  | nil => simp at hk
  | cons t ts =>
    cases k with
    | zero => simp [depthCol]
    | succ k =>
      have hk2 : k < ts.length := by simpa using hk
      simp only [depthCol, List.getD_cons_succ, List.take_succ_cons, List.sum_cons]
      rw [depthScan_getD ts (t / 2) t k hk2]
      ring

theorem getD_reverse (l : List ℚ) (k : ℕ) (hk : k < l.length) :
    l.reverse.getD k 0 = l.getD (l.length - 1 - k) 0 := by
  have hk2 : k < l.reverse.length := by simpa using hk
  rw [List.getD_eq_getElem _ _ hk2, List.getElem_reverse,
    List.getD_eq_getElem _ _ (by omega)]

theorem elevCol_getD (col : List ℚ) (k : ℕ) (hk : k < col.length) :
    (elevCol col).getD k 0 = (col.drop (k + 1)).sum + col.getD k 0 / 2 := by
  have hlen : (depthCol col.reverse).length = col.length := by
    rw [depthCol_length, List.length_reverse]
  rw [elevCol]
  rw [getD_reverse (depthCol col.reverse) k (by rw [hlen]; exact hk)]
  rw [hlen]
  rw [depthCol_getD col.reverse (col.length - 1 - k) (by rw [List.length_reverse]; omega)]
  have h1 : col.reverse.take (col.length - 1 - k) = (col.drop (k + 1)).reverse := by
    rw [List.take_reverse]
    congr 2
    omega
  have h2 : col.reverse.getD (col.length - 1 - k) 0 = col.getD k 0 := by
    rw [getD_reverse col (col.length - 1 - k) (by omega)]
    congr 1
    omega
  rw [h1, h2, List.sum_reverse]

theorem depthCol_add_elevCol (col : List ℚ) (k : ℕ) (hk : k < col.length) :
    (depthCol col).getD k 0 + (elevCol col).getD k 0 = col.sum := by
  rw [depthCol_getD col k hk, elevCol_getD col k hk]
  have hsum : (col.take k).sum + (col.drop k).sum = col.sum := by
    rw [← List.sum_append, List.take_append_drop]
  have hdrop : col.drop k = col[k] :: col.drop (k + 1) := List.drop_eq_getElem_cons hk
  rw [hdrop, List.sum_cons] at hsum
  rw [List.getD_eq_getElem _ _ hk]
  linarith

theorem getD_map_rel {α β : Type} (l : List α) (f : α → β) (d1 : α) (d2 : β)
    (hf : f d1 = d2) (i : ℕ) : (l.map f).getD i d2 = f (l.getD i d1) := by
  rcases lt_or_ge i l.length with h | h
  · rw [List.getD_eq_getElem _ _ (by simpa using h), List.getElem_map,
      List.getD_eq_getElem _ _ h]
  · rw [List.getD_eq_default _ _ (by simpa using h), List.getD_eq_default _ _ h, hf]

theorem resultAt3_depth (t : List (List (List ℚ))) (i j k : ℕ) :
    resultAt3 (build_depth_grid (.g3 t)) i j k
      = (depthCol ((t.getD i []).getD j [])).getD k 0 := by
  simp only [resultAt3, build_depth_grid, buildElevationGridAux]
  rw [getD_map_rel _ _ [] [] rfl, getD_map_rel _ _ [] [] rfl]

theorem resultAt3_elev (t : List (List (List ℚ))) (i j k : ℕ) :
    resultAt3 (build_elevation_grid (.g3 t)) i j k
      = (elevCol ((t.getD i []).getD j [])).getD k 0 := by
  simp only [resultAt3, build_elevation_grid, buildElevationGridAux]
  rw [getD_map_rel _ _ [] [] rfl, getD_map_rel _ _ [] [] (by rw [elevCol]; rfl)]

/-! ### Saturation equilibrium builder (`saturation.py`)

All six input grids of `build_saturation_grids` are modelled flattened
(row-major); `shape` is carried for the shape-equality validation and
`size_eq` is numpy's size invariant.  Saturation-like values and depths are
finite rationals; porosity entries are `Option ℚ`, `none` standing for a
non-finite float (NaN, ±∞), which makes the active-cell test
`np.isfinite(porosity) & (porosity > 0)` expressible. -/

structure QGrid where
  shape : List ℕ
  data : List ℚ
  size_eq : data.length = shape.prod

structure PGrid where
  shape : List ℕ
  data : List (Option ℚ)
  size_eq : data.length = shape.prod

/-- The `active_mask` entry at flat index `i`: porosity finite and > 0. -/
def activeAt (phi : PGrid) (i : ℕ) : Bool :=
  match phi.data.getD i none with
  | some q => decide (0 < q)
  | none => false

/-- Prop form of the active-cell test (porosity finite and positive). -/
def ActiveCell (phi : PGrid) (i : ℕ) : Prop :=
  ∃ q, phi.data.getD i none = some q ∧ 0 < q

/-- `np.any(p(g[active]))`: some active cell of `g` satisfies `p`. -/
def anyActive (phi : PGrid) (g : QGrid) (p : ℚ → Bool) : Bool :=
  (List.range phi.data.length).any fun i => activeAt phi i && p (g.data.getD i 0)

/-- `np.any(p(g[active], h[active]))` for a cellwise binary predicate. -/
def anyActive2 (phi : PGrid) (g h : QGrid) (p : ℚ → ℚ → Bool) : Bool :=
  (List.range phi.data.length).any fun i =>
    activeAt phi i && p (g.data.getD i 0) (h.data.getD i 0)

/-- `_validate_inputs` — `true` iff no `ValidationError` is raised.  The
checks appear in source order; the warnings (thin oil column,
`Sor_gas > Sor_water`), which never abort, are not modelled. -/
def saturationInputsOk (dep : QGrid) (goc owc : ℚ) (swc sorw sorg sgr : QGrid)
    (phi : PGrid) (useTransitions : Bool) (hGO hOW expo : ℚ) : Bool :=
  if goc ≥ owc then false
  else if ¬(dep.shape = swc.shape ∧ swc.shape = sorw.shape ∧ sorw.shape = sorg.shape
      ∧ sorg.shape = sgr.shape ∧ sgr.shape = phi.shape) then false
  else if anyActive phi swc (fun v => decide (v < 0 ∨ v > 1)) then false
  else if anyActive phi sorw (fun v => decide (v < 0 ∨ v > 1)) then false
  else if anyActive phi sorg (fun v => decide (v < 0 ∨ v > 1)) then false
  else if anyActive phi sgr (fun v => decide (v < 0 ∨ v > 1)) then false
  else if anyActive2 phi swc sorg (fun a b => decide (a + b > 1)) then false
  else if anyActive2 phi swc sgr (fun a b => decide (a + b > 1)) then false
  else if anyActive2 phi sorw sgr (fun a b => decide (a + b > 1)) then false
  else if useTransitions then
    if hGO ≤ 0 ∨ hOW ≤ 0 then false
    else if expo ≤ 0 then false
    else if goc + hGO / 2 ≥ owc - hOW / 2 then false
    else true
  else true

/-- `np.clip(x, 0.0, 1.0)`. -/
def clip01 (x : ℚ) : ℚ := if x < 0 then 0 else if 1 < x then 1 else x

/-- `_build_sharp_contacts` at one cell; result is `(Sw, So, Sg)`.  The three
zone masks are mutually exclusive, so the sequential masked assignments of the
source are an if-chain. -/
def sharpCell (goc owc d swcV sorwV sorgV sgrV : ℚ) (a : Bool) : ℚ × ℚ × ℚ :=
  if a ∧ d < goc then (swcV, sorgV, 1 - sorgV - swcV)
  else if a ∧ goc ≤ d ∧ d < owc then (swcV, 1 - swcV - sgrV, sgrV)
  else if a ∧ owc ≤ d then (1 - sorwV, sorwV, 0)
  else (0, 0, 0)

/-- `_build_transition_zones` at one cell; result is `(Sw, So, Sg)`.  The
source assigns the five masked zones in order gas-cap, gas–oil band, oil,
oil–water band, water, a later assignment overwriting an earlier one, so the
branches are tested here in reverse assignment order (under the validated
band ordering the masks are pairwise disjoint and the order is immaterial).
`powf` models `np.power`; only `powf (clip01 frac) expo` is ever taken. -/
def transCell (powf : ℚ → ℚ → ℚ) (goc owc hGO hOW expo d swcV sorwV sorgV sgrV : ℚ)
    (a : Bool) : ℚ × ℚ × ℚ :=
  if a ∧ owc + hOW / 2 < d then (1 - sorwV, sorwV, 0)
  else if a ∧ owc - hOW / 2 ≤ d ∧ d ≤ owc + hOW / 2 then
    (swcV * (1 - powf (clip01 ((d - (owc - hOW / 2)) / hOW)) expo)
        + (1 - sorwV) * powf (clip01 ((d - (owc - hOW / 2)) / hOW)) expo,
      (1 - swcV - sgrV) * (1 - powf (clip01 ((d - (owc - hOW / 2)) / hOW)) expo)
        + sorwV * powf (clip01 ((d - (owc - hOW / 2)) / hOW)) expo,
      sgrV * (1 - powf (clip01 ((d - (owc - hOW / 2)) / hOW)) expo))
  else if a ∧ goc + hGO / 2 < d ∧ d < owc - hOW / 2 then (swcV, 1 - swcV - sgrV, sgrV)
  else if a ∧ goc - hGO / 2 ≤ d ∧ d ≤ goc + hGO / 2 then
    (swcV,
      sorgV * (1 - powf (clip01 ((d - (goc - hGO / 2)) / hGO)) expo)
        + (1 - swcV - sgrV) * powf (clip01 ((d - (goc - hGO / 2)) / hGO)) expo,
      (1 - sorgV - swcV) * (1 - powf (clip01 ((d - (goc - hGO / 2)) / hGO)) expo)
        + sgrV * powf (clip01 ((d - (goc - hGO / 2)) / hGO)) expo)
  else if a ∧ d < goc - hGO / 2 then (swcV, sorgV, 1 - sorgV - swcV)
  else (0, 0, 0)

/-- The pre-normalization saturations of one cell (sharp or transition mode). -/
def rawCell (useTransitions : Bool) (powf : ℚ → ℚ → ℚ)
    (goc owc hGO hOW expo d swcV sorwV sorgV sgrV : ℚ) (a : Bool) : ℚ × ℚ × ℚ :=
  if useTransitions then transCell powf goc owc hGO hOW expo d swcV sorwV sorgV sgrV a
  else sharpCell goc owc d swcV sorwV sorgV sgrV a

/-- `_normalize_saturations` at one cell: an active cell with positive total
is divided by the total, inactive cells are zeroed, and an active cell with
non-positive total is left unchanged. -/
def normCell (a : Bool) (s : ℚ × ℚ × ℚ) : ℚ × ℚ × ℚ :=
  let total := s.1 + s.2.1 + s.2.2
  let r := if a ∧ 0 < total then (s.1 / total, s.2.1 / total, s.2.2 / total) else s
  if a then r else (0, 0, 0)

/-- `build_saturation_grids`: validation, then sharp or transition zone
construction into zero-initialised arrays, then normalization.  Returns the
flattened `(Sw, So, Sg)` arrays, shaped like the depth grid. -/
def build_saturation_grids (dep : QGrid) (goc owc : ℚ) (swc sorw sorg sgr : QGrid)
    (phi : PGrid) (useTransitions : Bool) (hGO hOW expo : ℚ) (powf : ℚ → ℚ → ℚ) :
    Except GridError (List ℚ × List ℚ × List ℚ) :=
  if saturationInputsOk dep goc owc swc sorw sorg sgr phi useTransitions hGO hOW expo then
    let cell := fun i =>
      normCell (activeAt phi i)
        (rawCell useTransitions powf goc owc hGO hOW expo (dep.data.getD i 0)
          (swc.data.getD i 0) (sorw.data.getD i 0) (sorg.data.getD i 0)
          (sgr.data.getD i 0) (activeAt phi i))
    .ok ((List.range dep.data.length).map fun i => (cell i).1,
         (List.range dep.data.length).map fun i => (cell i).2.1,
         (List.range dep.data.length).map fun i => (cell i).2.2)
  else .error .validationError

/-- Total of a saturation triple `(Sw, So, Sg)`. -/
def tripleSum (s : ℚ × ℚ × ℚ) : ℚ := s.1 + s.2.1 + s.2.2

/-! ### Lemmas about the saturation builder -/

theorem activeAt_iff (phi : PGrid) (i : ℕ) : activeAt phi i = true ↔ ActiveCell phi i := by
  unfold activeAt ActiveCell
  cases h : phi.data.getD i none with
  | none => simp
  | some q => simp

theorem ActiveCell.lt_length {phi : PGrid} {i : ℕ} (h : ActiveCell phi i) :
    i < phi.data.length := by
  by_contra hge
  obtain ⟨q, hq, _⟩ := h
  rw [List.getD_eq_default _ _ (by omega)] at hq
  exact Option.noConfusion hq

theorem anyActive_iff (phi : PGrid) (g : QGrid) (P : ℚ → Prop) [DecidablePred P] :
    anyActive phi g (fun v => decide (P v)) = true
      ↔ ∃ i, ActiveCell phi i ∧ P (g.data.getD i 0) := by
  unfold anyActive
  rw [List.any_eq_true]
  constructor
  · rintro ⟨i, _, hp⟩
    rw [Bool.and_eq_true, decide_eq_true_eq] at hp
    exact ⟨i, (activeAt_iff phi i).1 hp.1, hp.2⟩
  · rintro ⟨i, hact, hp⟩
    refine ⟨i, List.mem_range.2 hact.lt_length, ?_⟩
    rw [Bool.and_eq_true, decide_eq_true_eq]
    exact ⟨(activeAt_iff phi i).2 hact, hp⟩

theorem anyActive2_iff (phi : PGrid) (g h : QGrid) (P : ℚ → ℚ → Prop)
    [∀ a b, Decidable (P a b)] :
    anyActive2 phi g h (fun a b => decide (P a b)) = true
      ↔ ∃ i, ActiveCell phi i ∧ P (g.data.getD i 0) (h.data.getD i 0) := by
  unfold anyActive2
  rw [List.any_eq_true]
  constructor
  · rintro ⟨i, _, hp⟩
    rw [Bool.and_eq_true, decide_eq_true_eq] at hp
    exact ⟨i, (activeAt_iff phi i).1 hp.1, hp.2⟩
  · rintro ⟨i, hact, hp⟩
    refine ⟨i, List.mem_range.2 hact.lt_length, ?_⟩
    rw [Bool.and_eq_true, decide_eq_true_eq]
    exact ⟨(activeAt_iff phi i).2 hact, hp⟩

/-- In every zone of the sharp builder the assigned phases of an active cell
total exactly 1, and the three zones cover every depth. -/
theorem sharpCell_active_sum (goc owc d swcV sorwV sorgV sgrV : ℚ) :
    tripleSum (sharpCell goc owc d swcV sorwV sorgV sgrV true) = 1 := by
  unfold sharpCell tripleSum
  simp only [eq_self_iff_true, true_and]
  split_ifs with h1 h2 h3
  · ring
  · ring
  · ring
  · push_neg at h1 h2 h3
    exact absurd (h2 h1) (not_le.2 h3)

/-- In every zone of the transition builder the assigned phases of an active
cell total exactly 1 — for the bands this holds for *any* blend weight — and
the five zones cover every depth. -/
theorem transCell_active_sum (powf : ℚ → ℚ → ℚ)
    (goc owc hGO hOW expo d swcV sorwV sorgV sgrV : ℚ) :
    tripleSum (transCell powf goc owc hGO hOW expo d swcV sorwV sorgV sgrV true) = 1 := by
  unfold transCell tripleSum
  simp only [eq_self_iff_true, true_and]
  split_ifs with h1 h2 h3 h4 h5
  · ring
  · ring
  · ring
  · ring
  · ring
  · push_neg at h1 h2 h3 h4 h5
    exact absurd (h2 (h3 (h4 h5))) (not_lt.2 h1)

theorem rawCell_active_sum (useTransitions : Bool) (powf : ℚ → ℚ → ℚ)
    (goc owc hGO hOW expo d swcV sorwV sorgV sgrV : ℚ) :
    tripleSum (rawCell useTransitions powf goc owc hGO hOW expo d
      swcV sorwV sorgV sgrV true) = 1 := by
  cases useTransitions with
  | false =>
      rw [rawCell, if_neg (by simp)]
      exact sharpCell_active_sum goc owc d swcV sorwV sorgV sgrV
  | true =>
      rw [rawCell, if_pos rfl]
      exact transCell_active_sum powf goc owc hGO hOW expo d swcV sorwV sorgV sgrV

theorem normCell_inactive (s : ℚ × ℚ × ℚ) : normCell false s = (0, 0, 0) := by
  simp [normCell]

theorem normCell_active_of_sum_one (s : ℚ × ℚ × ℚ) (hs : tripleSum s = 1) :
    normCell true s = s := by
  obtain ⟨s1, s2, s3⟩ := s
  unfold tripleSum at hs
  simp only at hs
  simp [normCell, hs]

theorem getD_map_range (f : ℕ → ℚ) (n i : ℕ) (hi : i < n) :
    ((List.range n).map f).getD i 0 = f i := by
  rw [List.getD_eq_getElem _ _ (by simpa using hi), List.getElem_map, List.getElem_range]

/-- On a successful run, output cell `i` is the normalised raw cell. -/
theorem build_saturation_ok_cell (dep : QGrid) (goc owc : ℚ) (swc sorw sorg sgr : QGrid)
    (phi : PGrid) (useTransitions : Bool) (hGO hOW expo : ℚ) (powf : ℚ → ℚ → ℚ)
    (sw so sg : List ℚ)
    (h : build_saturation_grids dep goc owc swc sorw sorg sgr phi useTransitions
        hGO hOW expo powf = .ok (sw, so, sg))
    (i : ℕ) (hi : i < dep.data.length) :
    (sw.getD i 0, so.getD i 0, sg.getD i 0)
      = normCell (activeAt phi i)
          (rawCell useTransitions powf goc owc hGO hOW expo (dep.data.getD i 0)
            (swc.data.getD i 0) (sorw.data.getD i 0) (sorg.data.getD i 0)
            (sgr.data.getD i 0) (activeAt phi i)) := by
  rw [build_saturation_grids] at h
  by_cases hv : saturationInputsOk dep goc owc swc sorw sorg sgr phi useTransitions
      hGO hOW expo
  · rw [if_pos hv] at h
    simp only [Except.ok.injEq, Prod.mk.injEq] at h
    obtain ⟨h1, h2, h3⟩ := h
    rw [← h1, ← h2, ← h3, getD_map_range _ _ _ hi, getD_map_range _ _ _ hi,
      getD_map_range _ _ _ hi]
  · rw [if_neg hv] at h
    exact absurd h (by simp)

/-- A successful run implies the validation succeeded. -/
theorem build_saturation_ok_valid (dep : QGrid) (goc owc : ℚ) (swc sorw sorg sgr : QGrid)
    (phi : PGrid) (useTransitions : Bool) (hGO hOW expo : ℚ) (powf : ℚ → ℚ → ℚ)
    (out : List ℚ × List ℚ × List ℚ)
    (h : build_saturation_grids dep goc owc swc sorw sorg sgr phi useTransitions
        hGO hOW expo powf = .ok out) :
    saturationInputsOk dep goc owc swc sorw sorg sgr phi useTransitions hGO hOW expo
      = true := by
  rw [build_saturation_grids] at h
  by_cases hv : saturationInputsOk dep goc owc swc sorw sorg sgr phi useTransitions
      hGO hOW expo
  · exact hv
  · rw [if_neg hv] at h
    exact absurd h (by simp)

set_option maxHeartbeats 2000000 in
/-- The exact failure condition of `_validate_inputs`, in the spec's terms. -/
theorem satOk_false_iff (dep : QGrid) (goc owc : ℚ) (swc sorw sorg sgr : QGrid)
    (phi : PGrid) (useTransitions : Bool) (hGO hOW expo : ℚ) :
    saturationInputsOk dep goc owc swc sorw sorg sgr phi useTransitions hGO hOW expo
        = false
      ↔ goc ≥ owc
        ∨ ¬(dep.shape = swc.shape ∧ swc.shape = sorw.shape ∧ sorw.shape = sorg.shape
            ∧ sorg.shape = sgr.shape ∧ sgr.shape = phi.shape)
        ∨ (∃ i, ActiveCell phi i ∧ (swc.data.getD i 0 < 0 ∨ swc.data.getD i 0 > 1))
        ∨ (∃ i, ActiveCell phi i ∧ (sorw.data.getD i 0 < 0 ∨ sorw.data.getD i 0 > 1))
        ∨ (∃ i, ActiveCell phi i ∧ (sorg.data.getD i 0 < 0 ∨ sorg.data.getD i 0 > 1))
        ∨ (∃ i, ActiveCell phi i ∧ (sgr.data.getD i 0 < 0 ∨ sgr.data.getD i 0 > 1))
        ∨ (∃ i, ActiveCell phi i ∧ swc.data.getD i 0 + sorg.data.getD i 0 > 1)
        ∨ (∃ i, ActiveCell phi i ∧ swc.data.getD i 0 + sgr.data.getD i 0 > 1)
        ∨ (∃ i, ActiveCell phi i ∧ sorw.data.getD i 0 + sgr.data.getD i 0 > 1)
        ∨ (useTransitions = true
            ∧ (hGO ≤ 0 ∨ hOW ≤ 0 ∨ expo ≤ 0 ∨ owc - hOW / 2 ≤ goc + hGO / 2)) := by
  unfold saturationInputsOk
  by_cases h1 : goc ≥ owc
  · rw [if_pos h1]
    exact iff_of_true rfl (Or.inl h1)
  rw [if_neg h1]
  by_cases h2 : dep.shape = swc.shape ∧ swc.shape = sorw.shape ∧ sorw.shape = sorg.shape
      ∧ sorg.shape = sgr.shape ∧ sgr.shape = phi.shape
  swap
  · rw [if_pos h2]
    exact iff_of_true rfl (Or.inr (Or.inl h2))
  rw [if_neg (not_not_intro h2)]
  by_cases h3 : anyActive phi swc (fun v => decide (v < 0 ∨ v > 1)) = true
  · rw [if_pos h3]
    exact iff_of_true rfl (Or.inr (Or.inr (Or.inl ((anyActive_iff phi swc _).1 h3))))
  rw [if_neg h3]
  by_cases h4 : anyActive phi sorw (fun v => decide (v < 0 ∨ v > 1)) = true
  · rw [if_pos h4]
    exact iff_of_true rfl
      (Or.inr (Or.inr (Or.inr (Or.inl ((anyActive_iff phi sorw _).1 h4)))))
  rw [if_neg h4]
  by_cases h5 : anyActive phi sorg (fun v => decide (v < 0 ∨ v > 1)) = true
  · rw [if_pos h5]
    exact iff_of_true rfl
      (Or.inr (Or.inr (Or.inr (Or.inr (Or.inl ((anyActive_iff phi sorg _).1 h5))))))
  rw [if_neg h5]
  by_cases h6 : anyActive phi sgr (fun v => decide (v < 0 ∨ v > 1)) = true
  · rw [if_pos h6]
    exact iff_of_true rfl
      (Or.inr (Or.inr (Or.inr (Or.inr (Or.inr (Or.inl
        ((anyActive_iff phi sgr _).1 h6)))))))
  rw [if_neg h6]
  by_cases h7 : anyActive2 phi swc sorg (fun a b => decide (a + b > 1)) = true
  · rw [if_pos h7]
    exact iff_of_true rfl
      (Or.inr (Or.inr (Or.inr (Or.inr (Or.inr (Or.inr (Or.inl
        ((anyActive2_iff phi swc sorg _).1 h7))))))))
  rw [if_neg h7]
  by_cases h8 : anyActive2 phi swc sgr (fun a b => decide (a + b > 1)) = true
  · rw [if_pos h8]
    exact iff_of_true rfl
      (Or.inr (Or.inr (Or.inr (Or.inr (Or.inr (Or.inr (Or.inr (Or.inl
        ((anyActive2_iff phi swc sgr _).1 h8)))))))))
  rw [if_neg h8]
  by_cases h9 : anyActive2 phi sorw sgr (fun a b => decide (a + b > 1)) = true
  · rw [if_pos h9]
    exact iff_of_true rfl
      (Or.inr (Or.inr (Or.inr (Or.inr (Or.inr (Or.inr (Or.inr (Or.inr (Or.inl
        ((anyActive2_iff phi sorw sgr _).1 h9))))))))))
  rw [if_neg h9]
  cases useTransitions with
  | false =>
      rw [if_neg (by simp)]
      refine iff_of_false (fun habs => Bool.noConfusion habs) (fun hR => ?_)
      rcases hR with h | h | h | h | h | h | h | h | h | h
      · exact h1 h
      · exact h h2
      · exact h3 ((anyActive_iff phi swc _).2 h)
      · exact h4 ((anyActive_iff phi sorw _).2 h)
      · exact h5 ((anyActive_iff phi sorg _).2 h)
      · exact h6 ((anyActive_iff phi sgr _).2 h)
      · exact h7 ((anyActive2_iff phi swc sorg _).2 h)
      · exact h8 ((anyActive2_iff phi swc sgr _).2 h)
      · exact h9 ((anyActive2_iff phi sorw sgr _).2 h)
      · exact Bool.noConfusion h.1
  | true =>
      rw [if_pos rfl]
      by_cases h11 : hGO ≤ 0 ∨ hOW ≤ 0
      · rw [if_pos h11]
        exact iff_of_true rfl
          (Or.inr (Or.inr (Or.inr (Or.inr (Or.inr (Or.inr (Or.inr (Or.inr (Or.inr
            ⟨rfl, by tauto⟩)))))))))
      rw [if_neg h11]
      by_cases h12 : expo ≤ 0
      · rw [if_pos h12]
        exact iff_of_true rfl
          (Or.inr (Or.inr (Or.inr (Or.inr (Or.inr (Or.inr (Or.inr (Or.inr (Or.inr
            ⟨rfl, Or.inr (Or.inr (Or.inl h12))⟩)))))))))
      rw [if_neg h12]
      by_cases h13 : goc + hGO / 2 ≥ owc - hOW / 2
      · rw [if_pos h13]
        exact iff_of_true rfl
          (Or.inr (Or.inr (Or.inr (Or.inr (Or.inr (Or.inr (Or.inr (Or.inr (Or.inr
            ⟨rfl, Or.inr (Or.inr (Or.inr h13))⟩)))))))))
      rw [if_neg h13]
      refine iff_of_false (fun habs => Bool.noConfusion habs) (fun hR => ?_)
      rcases hR with h | h | h | h | h | h | h | h | h | h
      · exact h1 h
      · exact h h2
      · exact h3 ((anyActive_iff phi swc _).2 h)
      · exact h4 ((anyActive_iff phi sorw _).2 h)
      · exact h5 ((anyActive_iff phi sorg _).2 h)
      · exact h6 ((anyActive_iff phi sgr _).2 h)
      · exact h7 ((anyActive2_iff phi swc sorg _).2 h)
      · exact h8 ((anyActive2_iff phi swc sgr _).2 h)
      · exact h9 ((anyActive2_iff phi sorw sgr _).2 h)
      · rcases h.2 with hi | hi | hi | hi
        · exact h11 (Or.inl hi)
        · exact h11 (Or.inr hi)
        · exact h12 hi
        · exact h13 hi

theorem rawCell_sharp (powf : ℚ → ℚ → ℚ) (goc owc hGO hOW expo d swcV sorwV sorgV sgrV : ℚ)
    (a : Bool) :
    rawCell false powf goc owc hGO hOW expo d swcV sorwV sorgV sgrV a
      = sharpCell goc owc d swcV sorwV sorgV sgrV a := by
  rw [rawCell, if_neg (by simp)]

theorem sharpCell_gas (goc owc d swcV sorwV sorgV sgrV : ℚ) (hd : d < goc) :
    sharpCell goc owc d swcV sorwV sorgV sgrV true = (swcV, sorgV, 1 - sorgV - swcV) := by
  rw [sharpCell, if_pos ⟨rfl, hd⟩]

theorem sharpCell_oil (goc owc d swcV sorwV sorgV sgrV : ℚ) (hd1 : goc ≤ d) (hd2 : d < owc) :
    sharpCell goc owc d swcV sorwV sorgV sgrV true = (swcV, 1 - swcV - sgrV, sgrV) := by
  rw [sharpCell, if_neg (fun hc => absurd hc.2 (not_lt.2 hd1)), if_pos ⟨rfl, hd1, hd2⟩]

theorem sharpCell_water (goc owc d swcV sorwV sorgV sgrV : ℚ) (hd : owc ≤ d)
    (hgo : goc < owc) :
    sharpCell goc owc d swcV sorwV sorgV sgrV true = (1 - sorwV, sorwV, 0) := by
  rw [sharpCell, if_neg (fun hc => absurd hc.2 (not_lt.2 (le_trans hgo.le hd))),
    if_neg (fun hc => absurd hc.2.2 (not_lt.2 hd)), if_pos ⟨rfl, hd⟩]

/-! ### Claims C1, C2, C3, C4 -/

/-- C1: on every accepted input (sharp or transition mode), the returned
grids satisfy `Sw + So + Sg = 1` in every active cell, are identically 0 in
every inactive cell, and any active cell whose pre-normalization total is
exactly 0 ends at `(0, 0, 0)` (in exact arithmetic the raw total of an active
cell is always 1, so that degenerate case is vacuous). -/
theorem C1_saturation_sum (dep : QGrid) (goc owc : ℚ) (swc sorw sorg sgr : QGrid)
    (phi : PGrid) (useTransitions : Bool) (hGO hOW expo : ℚ) (powf : ℚ → ℚ → ℚ)
    (sw so sg : List ℚ)
    (h : build_saturation_grids dep goc owc swc sorw sorg sgr phi useTransitions
        hGO hOW expo powf = .ok (sw, so, sg))
    (i : ℕ) (hi : i < dep.data.length) :
    (ActiveCell phi i → sw.getD i 0 + so.getD i 0 + sg.getD i 0 = 1)
      ∧ (¬ ActiveCell phi i → sw.getD i 0 = 0 ∧ so.getD i 0 = 0 ∧ sg.getD i 0 = 0)
      ∧ (ActiveCell phi i →
          tripleSum (rawCell useTransitions powf goc owc hGO hOW expo (dep.data.getD i 0)
            (swc.data.getD i 0) (sorw.data.getD i 0) (sorg.data.getD i 0)
            (sgr.data.getD i 0) (activeAt phi i)) = 0 →
          sw.getD i 0 = 0 ∧ so.getD i 0 = 0 ∧ sg.getD i 0 = 0) := by
  have hcell := build_saturation_ok_cell dep goc owc swc sorw sorg sgr phi useTransitions
    hGO hOW expo powf sw so sg h i hi
  by_cases hact : ActiveCell phi i
  · have hab : activeAt phi i = true := (activeAt_iff phi i).2 hact
    rw [hab] at hcell
    have hsum := rawCell_active_sum useTransitions powf goc owc hGO hOW expo
      (dep.data.getD i 0) (swc.data.getD i 0) (sorw.data.getD i 0) (sorg.data.getD i 0)
      (sgr.data.getD i 0)
    rw [normCell_active_of_sum_one _ hsum] at hcell
    have e1 := congrArg Prod.fst hcell
    have e2 := congrArg (fun p : ℚ × ℚ × ℚ => p.2.1) hcell
    have e3 := congrArg (fun p : ℚ × ℚ × ℚ => p.2.2) hcell
    dsimp only at e1 e2 e3
    refine ⟨fun _ => ?_, fun hcon => absurd hact hcon, fun _ hz => ?_⟩
    · rw [e1, e2, e3]
      exact hsum
    · rw [hab] at hz
      exact absurd (hsum.symm.trans hz) one_ne_zero
  · have hab : activeAt phi i = false :=
      Bool.eq_false_iff.2 (fun ht => hact ((activeAt_iff phi i).1 ht))
    rw [hab, normCell_inactive] at hcell
    simp only [Prod.mk.injEq] at hcell
    obtain ⟨e1, e2, e3⟩ := hcell
    exact ⟨fun hcon => absurd hcon hact, fun _ => ⟨e1, e2, e3⟩,
      fun hcon => absurd hcon hact⟩

/-- C1 witness: a one-cell active oil-zone reservoir; the built saturations
sum to 1 in the cell. -/
theorem C1_witness :
    build_saturation_grids ⟨[1], [15], rfl⟩ 10 20 ⟨[1], [1/4], rfl⟩ ⟨[1], [3/10], rfl⟩
        ⟨[1], [3/20], rfl⟩ ⟨[1], [1/20], rfl⟩ ⟨[1], [some (1/5)], rfl⟩ false 5 5 2
        (fun b _ => b) = .ok ([1/4], [7/10], [1/20])
      ∧ 0 < (([15] : List ℚ).length)
      ∧ (ActiveCell ⟨[1], [some (1/5)], rfl⟩ 0 →
          ([1/4] : List ℚ).getD 0 0 + ([7/10] : List ℚ).getD 0 0
            + ([1/20] : List ℚ).getD 0 0 = 1) := by
  have hb : build_saturation_grids ⟨[1], [15], rfl⟩ 10 20 ⟨[1], [1/4], rfl⟩
      ⟨[1], [3/10], rfl⟩ ⟨[1], [3/20], rfl⟩ ⟨[1], [1/20], rfl⟩
      ⟨[1], [some (1/5)], rfl⟩ false 5 5 2 (fun b _ => b)
      = .ok ([1/4], [7/10], [1/20]) := by
    norm_num [build_saturation_grids, saturationInputsOk, anyActive, anyActive2,
      activeAt, rawCell, sharpCell, normCell, List.range_succ, List.range_zero]
  exact ⟨hb, by norm_num,
    (C1_saturation_sum ⟨[1], [15], rfl⟩ 10 20 ⟨[1], [1/4], rfl⟩ ⟨[1], [3/10], rfl⟩
      ⟨[1], [3/20], rfl⟩ ⟨[1], [1/20], rfl⟩ ⟨[1], [some (1/5)], rfl⟩ false 5 5 2
      (fun b _ => b) [1/4] [7/10] [1/20] hb 0 (by norm_num)).1⟩

/-- C2: in sharp-contact mode every active cell follows the three-zone table
with half-open boundaries: `depth < GOC` is gas cap, `GOC ≤ depth < OWC` is
oil zone (a cell exactly at the GOC is oil-zone), `depth ≥ OWC` is water zone
(a cell exactly at the OWC is water-zone). -/
theorem C2_sharp_zone_table (dep : QGrid) (goc owc : ℚ) (swc sorw sorg sgr : QGrid)
    (phi : PGrid) (hGO hOW expo : ℚ) (powf : ℚ → ℚ → ℚ) (sw so sg : List ℚ)
    (h : build_saturation_grids dep goc owc swc sorw sorg sgr phi false hGO hOW expo powf
        = .ok (sw, so, sg))
    (i : ℕ) (hi : i < dep.data.length) (hact : ActiveCell phi i) :
    (dep.data.getD i 0 < goc →
        sw.getD i 0 = swc.data.getD i 0 ∧ so.getD i 0 = sorg.data.getD i 0
          ∧ sg.getD i 0 = 1 - sorg.data.getD i 0 - swc.data.getD i 0)
      ∧ (goc ≤ dep.data.getD i 0 → dep.data.getD i 0 < owc →
          sw.getD i 0 = swc.data.getD i 0
            ∧ so.getD i 0 = 1 - swc.data.getD i 0 - sgr.data.getD i 0
            ∧ sg.getD i 0 = sgr.data.getD i 0)
      ∧ (owc ≤ dep.data.getD i 0 →
          sw.getD i 0 = 1 - sorw.data.getD i 0 ∧ so.getD i 0 = sorw.data.getD i 0
            ∧ sg.getD i 0 = 0) := by
  have hcell := build_saturation_ok_cell dep goc owc swc sorw sorg sgr phi false
    hGO hOW expo powf sw so sg h i hi
  have hv := build_saturation_ok_valid dep goc owc swc sorw sorg sgr phi false
    hGO hOW expo powf _ h
  have hgocowc : goc < owc := by
    by_contra hge
    have hf : saturationInputsOk dep goc owc swc sorw sorg sgr phi false hGO hOW expo
        = false :=
      (satOk_false_iff dep goc owc swc sorw sorg sgr phi false hGO hOW expo).2
        (Or.inl (not_lt.1 hge))
    rw [hv] at hf
    exact Bool.noConfusion hf
  have hab : activeAt phi i = true := (activeAt_iff phi i).2 hact
  rw [hab, rawCell_sharp] at hcell
  refine ⟨fun hd => ?_, fun hd1 hd2 => ?_, fun hd => ?_⟩
  · rw [sharpCell_gas _ _ _ _ _ _ _ hd,
      normCell_active_of_sum_one _ (by show _ + _ + _ = 1; ring)] at hcell
    simp only [Prod.mk.injEq] at hcell
    exact hcell
  · rw [sharpCell_oil _ _ _ _ _ _ _ hd1 hd2,
      normCell_active_of_sum_one _ (by show _ + _ + _ = 1; ring)] at hcell
    simp only [Prod.mk.injEq] at hcell
    exact hcell
  · rw [sharpCell_water _ _ _ _ _ _ _ hd hgocowc,
      normCell_active_of_sum_one _ (by show _ + _ + _ = 1; ring)] at hcell
    simp only [Prod.mk.injEq] at hcell
    exact hcell

/-- C2 witness: one-cell grids exercising the gas zone at the concrete depth
5 above a GOC of 10. -/
theorem C2_witness :
    build_saturation_grids ⟨[1], [5], rfl⟩ 10 20 ⟨[1], [1/4], rfl⟩ ⟨[1], [3/10], rfl⟩
        ⟨[1], [3/20], rfl⟩ ⟨[1], [1/20], rfl⟩ ⟨[1], [some (1/5)], rfl⟩ false 5 5 2
        (fun b _ => b) = .ok ([1/4], [3/20], [1 - 3/20 - 1/4])
      ∧ 0 < (([5] : List ℚ).length)
      ∧ ActiveCell ⟨[1], [some (1/5)], rfl⟩ 0
      ∧ (([5] : List ℚ).getD 0 0 < 10 →
          ([1/4] : List ℚ).getD 0 0 = ([1/4] : List ℚ).getD 0 0
            ∧ ([3/20] : List ℚ).getD 0 0 = ([3/20] : List ℚ).getD 0 0
            ∧ ([1 - 3/20 - 1/4] : List ℚ).getD 0 0
                = 1 - ([3/20] : List ℚ).getD 0 0 - ([1/4] : List ℚ).getD 0 0) := by
  have hb : build_saturation_grids ⟨[1], [5], rfl⟩ 10 20 ⟨[1], [1/4], rfl⟩
      ⟨[1], [3/10], rfl⟩ ⟨[1], [3/20], rfl⟩ ⟨[1], [1/20], rfl⟩
      ⟨[1], [some (1/5)], rfl⟩ false 5 5 2 (fun b _ => b)
      = .ok ([1/4], [3/20], [1 - 3/20 - 1/4]) := by
    norm_num [build_saturation_grids, saturationInputsOk, anyActive, anyActive2,
      activeAt, rawCell, sharpCell, normCell, List.range_succ, List.range_zero]
  refine ⟨hb, by norm_num, ⟨1/5, rfl, by norm_num⟩, ?_⟩
  exact (C2_sharp_zone_table ⟨[1], [5], rfl⟩ 10 20 ⟨[1], [1/4], rfl⟩ ⟨[1], [3/10], rfl⟩
    ⟨[1], [3/20], rfl⟩ ⟨[1], [1/20], rfl⟩ ⟨[1], [some (1/5)], rfl⟩ 5 5 2 (fun b _ => b)
    [1/4] [3/20] [1 - 3/20 - 1/4] hb 0 (by norm_num) ⟨1/5, rfl, by norm_num⟩).1

/-- C3: `build_saturation_grids` fails with a `ValidationError` exactly when
one of the spec's validation conditions is violated — contact ordering, shape
mismatch, an out-of-range saturation in an active cell, an impossible
endpoint combination in an active cell, or (with transitions enabled) a
non-positive thickness or exponent or overlapping transition bands — and on
no other input. -/
theorem C3_validation_error_iff (dep : QGrid) (goc owc : ℚ) (swc sorw sorg sgr : QGrid)
    (phi : PGrid) (useTransitions : Bool) (hGO hOW expo : ℚ) (powf : ℚ → ℚ → ℚ) :
    build_saturation_grids dep goc owc swc sorw sorg sgr phi useTransitions hGO hOW expo
        powf = .error .validationError
      ↔ goc ≥ owc
        ∨ ¬(dep.shape = swc.shape ∧ swc.shape = sorw.shape ∧ sorw.shape = sorg.shape
            ∧ sorg.shape = sgr.shape ∧ sgr.shape = phi.shape)
        ∨ (∃ i, ActiveCell phi i ∧ (swc.data.getD i 0 < 0 ∨ swc.data.getD i 0 > 1))
        ∨ (∃ i, ActiveCell phi i ∧ (sorw.data.getD i 0 < 0 ∨ sorw.data.getD i 0 > 1))
        ∨ (∃ i, ActiveCell phi i ∧ (sorg.data.getD i 0 < 0 ∨ sorg.data.getD i 0 > 1))
        ∨ (∃ i, ActiveCell phi i ∧ (sgr.data.getD i 0 < 0 ∨ sgr.data.getD i 0 > 1))
        ∨ (∃ i, ActiveCell phi i ∧ swc.data.getD i 0 + sorg.data.getD i 0 > 1)
        ∨ (∃ i, ActiveCell phi i ∧ swc.data.getD i 0 + sgr.data.getD i 0 > 1)
        ∨ (∃ i, ActiveCell phi i ∧ sorw.data.getD i 0 + sgr.data.getD i 0 > 1)
        ∨ (useTransitions = true
            ∧ (hGO ≤ 0 ∨ hOW ≤ 0 ∨ expo ≤ 0 ∨ owc - hOW / 2 ≤ goc + hGO / 2)) := by
  rw [← satOk_false_iff dep goc owc swc sorw sorg sgr phi useTransitions hGO hOW expo]
  rw [build_saturation_grids]
  by_cases hv : saturationInputsOk dep goc owc swc sorw sorg sgr phi useTransitions
      hGO hOW expo = true
  · rw [if_pos hv, hv]
    exact iff_of_false (fun habs => Except.noConfusion habs)
      (fun habs => Bool.noConfusion habs)
  · rw [if_neg hv]
    exact iff_of_true rfl (Bool.eq_false_iff.2 hv)

/-- C4: in transition mode the blended band formulas agree with the adjacent
pure-zone formulas at the band edges.  With `frac = clip((depth − band_top) /
band_thickness, 0, 1)` and weight `powf frac expo`: at the top of the gas–oil
band (`frac = 0`) the band yields the gas-cap triple and at its bottom
(`frac = 1`) the oil-zone triple; at the top of the oil–water band the band
yields the oil-zone triple and at its bottom the water-zone triple — no
discontinuity at the four band edges.  The hypotheses `powf 0 expo = 0` and
`powf 1 expo = 1` are the `np.power` facts for a positive exponent. -/
theorem C4_band_edge_continuity (powf : ℚ → ℚ → ℚ)
    (goc owc hGO hOW expo swcV sorwV sorgV sgrV : ℚ)
    (hgo : 0 < hGO) (how : 0 < hOW) (hsep : goc + hGO / 2 < owc - hOW / 2)
    (hp0 : powf 0 expo = 0) (hp1 : powf 1 expo = 1) :
    transCell powf goc owc hGO hOW expo (goc - hGO / 2) swcV sorwV sorgV sgrV true
        = (swcV, sorgV, 1 - sorgV - swcV)
      ∧ transCell powf goc owc hGO hOW expo (goc + hGO / 2) swcV sorwV sorgV sgrV true
        = (swcV, 1 - swcV - sgrV, sgrV)
      ∧ transCell powf goc owc hGO hOW expo (owc - hOW / 2) swcV sorwV sorgV sgrV true
        = (swcV, 1 - swcV - sgrV, sgrV)
      ∧ transCell powf goc owc hGO hOW expo (owc + hOW / 2) swcV sorwV sorgV sgrV true
        = (1 - sorwV, sorwV, 0) := by
  have hclip0 : clip01 0 = 0 := by norm_num [clip01]
  have hclip1 : clip01 1 = 1 := by norm_num [clip01]
  refine ⟨?_, ?_, ?_, ?_⟩
  · rw [transCell, if_neg (fun hc => absurd hc.2 (by linarith)),
      if_neg (fun hc => absurd hc.2.1 (by linarith)),
      if_neg (fun hc => absurd hc.2.1 (by linarith)),
      if_pos ⟨rfl, le_refl _, by linarith⟩]
    rw [sub_self, zero_div, hclip0, hp0]
    simp only [Prod.mk.injEq]
    exact ⟨trivial, by ring, by ring⟩
  · rw [transCell, if_neg (fun hc => absurd hc.2 (by linarith)),
      if_neg (fun hc => absurd hc.2.1 (by linarith)),
      if_neg (fun hc => absurd hc.2.1 (by linarith)),
      if_pos ⟨rfl, by linarith, le_refl _⟩]
    rw [show goc + hGO / 2 - (goc - hGO / 2) = hGO by ring, div_self (ne_of_gt hgo),
      hclip1, hp1]
    simp only [Prod.mk.injEq]
    exact ⟨trivial, by ring, by ring⟩
  · rw [transCell, if_neg (fun hc => absurd hc.2 (by linarith)),
      if_pos ⟨rfl, le_refl _, by linarith⟩]
    rw [sub_self, zero_div, hclip0, hp0]
    simp only [Prod.mk.injEq]
    exact ⟨by ring, by ring, by ring⟩
  · rw [transCell, if_neg (fun hc => absurd hc.2 (by linarith)),
      if_pos ⟨rfl, by linarith, le_refl _⟩]
    rw [show owc + hOW / 2 - (owc - hOW / 2) = hOW by ring, div_self (ne_of_gt how),
      hclip1, hp1]
    simp only [Prod.mk.injEq]
    exact ⟨by ring, by ring, by ring⟩

/-- C4 witness: band-edge agreement at concrete contacts 10/20 with band
thicknesses 2 and the square power law. -/
theorem C4_witness :
    (0 : ℚ) < 2 ∧ (10 : ℚ) + 2 / 2 < 20 - 2 / 2
      ∧ (fun b _ => b * b : ℚ → ℚ → ℚ) 0 2 = 0
      ∧ (fun b _ => b * b : ℚ → ℚ → ℚ) 1 2 = 1
      ∧ (transCell (fun b _ => b * b) 10 20 2 2 2 (10 - 2 / 2) (1/4) (3/10) (3/20)
            (1/20) true = (1/4, 3/20, 1 - 3/20 - 1/4)
        ∧ transCell (fun b _ => b * b) 10 20 2 2 2 (10 + 2 / 2) (1/4) (3/10) (3/20)
            (1/20) true = (1/4, 1 - 1/4 - 1/20, 1/20)
        ∧ transCell (fun b _ => b * b) 10 20 2 2 2 (20 - 2 / 2) (1/4) (3/10) (3/20)
            (1/20) true = (1/4, 1 - 1/4 - 1/20, 1/20)
        ∧ transCell (fun b _ => b * b) 10 20 2 2 2 (20 + 2 / 2) (1/4) (3/10) (3/20)
            (1/20) true = (1 - 3/10, 3/10, 0)) :=
  ⟨by norm_num, by norm_num, by norm_num, by norm_num,
    C4_band_edge_continuity (fun b _ => b * b) 10 20 2 2 2 (1/4) (3/10) (3/20) (1/20)
      (by norm_num) (by norm_num) (by norm_num) (by norm_num) (by norm_num)⟩

/-! ### Float values with NaN and infinities (for the coarsening routines)

`coarsen_grid` and the permeability coarseners manipulate NaN (as padding and
inactive-cell sentinel) and can produce and clamp infinities, so their value
domain is modelled exactly: a finite rational, NaN, or ±∞.  Signed zero is not
distinguished (the code paths the claims exercise never depend on it). -/

inductive FV where
  | fin (q : ℚ)
  | nan
  | inf
  | ninf
deriving DecidableEq

def FV.isNaN : FV → Bool
  | .nan => true
  | _ => false

def FV.isFinite : FV → Bool
  | .fin _ => true
  | _ => false

def FV.isInf : FV → Bool
  | .inf => true
  | .ninf => true
  | _ => false

/-- IEEE addition. -/
def FV.add : FV → FV → FV
  | .nan, _ => .nan
  | _, .nan => .nan
  | .inf, .ninf => .nan
  | .ninf, .inf => .nan
  | .inf, _ => .inf
  | _, .inf => .inf
  | .ninf, _ => .ninf
  | _, .ninf => .ninf
  | .fin a, .fin b => .fin (a + b)

/-- IEEE division (zero divisors behave as positive zero). -/
def FV.div : FV → FV → FV
  | .nan, _ => .nan
  | _, .nan => .nan
  | .inf, .inf => .nan
  | .inf, .ninf => .nan
  | .ninf, .inf => .nan
  | .ninf, .ninf => .nan
  | .inf, .fin b => if b < 0 then .ninf else .inf
  | .ninf, .fin b => if b < 0 then .inf else .ninf
  | .fin _, .inf => .fin 0
  | .fin _, .ninf => .fin 0
  | .fin a, .fin b =>
      if b = 0 then (if a = 0 then .nan else if a < 0 then .ninf else .inf)
      else .fin (a / b)

/-- `np.sum` (NaN propagates; `inf + (-inf)` is NaN). -/
def FV.sumList (xs : List FV) : FV := xs.foldr FV.add (.fin 0)

/-- `np.nansum`: NaN entries are skipped; an empty or all-NaN list sums to 0. -/
def FV.nansum (xs : List FV) : FV := FV.sumList (xs.filter (fun x => !x.isNaN))

/-- `np.sum(~np.isnan(...))`: the number of non-NaN entries. -/
def countNonNaN (xs : List FV) : ℕ := (xs.filter (fun x => !x.isNaN)).length

/-- `np.nanmean`: `nansum / count of non-NaN` (an all-NaN list gives `0 / 0`,
i.e. NaN, matching numpy's warn-then-NaN behaviour). -/
def nanmeanFV (xs : List FV) : FV := FV.div (FV.nansum xs) (.fin (countNonNaN xs))

/-- IEEE max (NaN propagates, as in `np.max`). -/
def FV.fmax : FV → FV → FV
  | .nan, _ => .nan
  | _, .nan => .nan
  | .inf, _ => .inf
  | _, .inf => .inf
  | .ninf, b => b
  | a, .ninf => a
  | .fin a, .fin b => .fin (max a b)

/-- IEEE min (NaN propagates, as in `np.min`). -/
def FV.fmin : FV → FV → FV
  | .nan, _ => .nan
  | _, .nan => .nan
  | .ninf, _ => .ninf
  | _, .ninf => .ninf
  | .inf, b => b
  | a, .inf => a
  | .fin a, .fin b => .fin (min a b)

/-- `np.nanmax`: max over non-NaN entries, NaN when there are none. -/
def nanmaxFV (xs : List FV) : FV :=
  match xs.filter (fun x => !x.isNaN) with
  | [] => .nan
  | y :: ys => ys.foldl FV.fmax y

/-- `np.nanmin`: min over non-NaN entries, NaN when there are none. -/
def nanminFV (xs : List FV) : FV :=
  match xs.filter (fun x => !x.isNaN) with
  | [] => .nan
  | y :: ys => ys.foldl FV.fmin y

/-! ### Block coarsener (`coarsen_grid`), modelled on 2-D arrays
(the 3-D case pads and aggregates blocks in exactly the same way). -/

/-- The `reciprocals` step of the harmonic branches: `1 / (x + ε)`, then NaN
kept where the input was NaN. -/
def recipEps (eps : ℚ) (x : FV) : FV :=
  if x.isNaN then .nan else FV.div (.fin 1) (FV.add x (.fin eps))

inductive CoarsenMethod where
  | mean
  | sum
  | max
  | min
  | harmonic
deriving DecidableEq

/-- The padding sentinel `coarsen_grid` uses: NaN for `mean`/`max`/`min`/
`harmonic`, `0.0` for `sum`. -/
def padValue : CoarsenMethod → FV
  | .sum => .fin 0
  | _ => .nan

/-- Padding amount on one axis: `0` if `dim % b == 0`, else `b - dim % b`
(`b = 0` raises `ZeroDivisionError` in the source and is outside every
claim). -/
def padAmount (dim b : ℕ) : ℕ := if dim % b = 0 then 0 else b - dim % b

/-- `np.pad(data, ((0, pad_x), (0, pad_y)), constant_values=v)` on a 2-D
array whose rows have length `ny`. -/
def pad2 (data : List (List FV)) (bx bj : ℕ) (v : FV) : List (List FV) :=
  (data.map (fun r =>
      r ++ List.replicate ((data.headD []).length
        + padAmount (data.headD []).length bj - r.length) v))
    ++ List.replicate (padAmount data.length bx)
        (List.replicate ((data.headD []).length
          + padAmount (data.headD []).length bj) v)

/-- Entry `(i, j)` of a 2-D array (used in range only). -/
def get2 (d : List (List FV)) (i j : ℕ) : FV := (d.getD i []).getD j (.fin 0)

/-- The cells of output block `(bi, bj)`, row-major. -/
def blockCells (d : List (List FV)) (bx bj cellsI cellsJ : ℕ) : List FV :=
  ((List.range bx).map (fun a =>
    (List.range bj).map (fun c => get2 d (cellsI * bx + a) (cellsJ * bj + c)))).flatten

/-- Per-block reduction of `coarsen_grid`.  The harmonic branch follows the
source: reciprocals with `ε`, non-NaN count, `nansum`, the division
`counts / sum_reciprocals`, then NaN where the count is 0 and 0 where the
result is infinite. -/
def reduceBlock (m : CoarsenMethod) (eps : ℚ) (cells : List FV) : FV :=
  match m with
  | .mean => nanmeanFV cells
  | .sum => FV.sumList cells
  | .max => nanmaxFV cells
  | .min => nanminFV cells
  | .harmonic =>
      let r := FV.div (.fin (countNonNaN cells)) (FV.nansum (cells.map (recipEps eps)))
      let r2 := if countNonNaN cells = 0 then FV.nan else r
      if r2.isInf then .fin 0 else r2

/-- `coarsen_grid` on a 2-D array: pad with the method's sentinel to whole
blocks, then reduce every block. -/
def coarsen_grid2 (data : List (List FV)) (bx bj : ℕ) (m : CoarsenMethod) (eps : ℚ) :
    List (List FV) :=
  (List.range ((data.length + padAmount data.length bx) / bx)).map fun bi =>
    (List.range (((data.headD []).length
        + padAmount (data.headD []).length bj) / bj)).map fun bj2 =>
      reduceBlock m eps (blockCells (pad2 data bx bj (padValue m)) bx bj bi bj2)

/-- The amended claim's harmonic formula, stated on its own: with `n` the
number of non-NaN cells of the block, the result is `n / Σ 1/(xᵢ+ε)` over
those cells; `n = 0` gives NaN; an infinite result is clamped to 0. -/
def harmonicSpec (eps : ℚ) (cells : List FV) : FV :=
  if (cells.filter (fun x => !x.isNaN)).length = 0 then .nan
  else
    let r := FV.div (.fin ((cells.filter (fun x => !x.isNaN)).length))
      (FV.sumList ((cells.filter (fun x => !x.isNaN)).map
        (fun x => FV.div (.fin 1) (FV.add x (.fin eps)))))
    if r.isInf then .fin 0 else r

/-! ### Anisotropic permeability coarsening (`_coarsen_2d_permeability_grids`,
`_axis_harmonic_mean`) -/

/-- One output cell of `_axis_harmonic_mean`: harmonic mean over one line of
cells, with `ε` inside the reciprocals *and* added to the denominator sum;
NaN where the non-NaN count is 0, infinite results clamped to 0. -/
def axisHarmCell (eps : ℚ) (cells : List FV) : FV :=
  let r := FV.div (.fin (countNonNaN cells))
    (FV.add (FV.nansum (cells.map (recipEps eps))) (.fin eps))
  let r2 := if countNonNaN cells = 0 then FV.nan else r
  if r2.isInf then .fin 0 else r2

/-- `_axis_harmonic_mean(block, axis=0)`: one harmonic mean per column. -/
def axisHarmX (eps : ℚ) (blk : List (List FV)) : List FV :=
  (List.range ((blk.headD []).length)).map fun j =>
    axisHarmCell eps (blk.map (fun r => r.getD j (.fin 0)))

/-- `_axis_harmonic_mean(block, axis=1)`: one harmonic mean per row. -/
def axisHarmY (eps : ℚ) (blk : List (List FV)) : List FV :=
  blk.map (axisHarmCell eps)

/-- Block `(bi, bj)` of a padded 2-D array, as a `bx × bj` nested list. -/
def block2 (d : List (List FV)) (bx bj cellsI cellsJ : ℕ) : List (List FV) :=
  (List.range bx).map fun a => (List.range bj).map fun c =>
    get2 d (cellsI * bx + a) (cellsJ * bj + c)

/-- `_coarsen_2d_permeability_grids` (reached from
`coarsen_permeability_grids` for 2-D inputs): validate, pad with NaN, then
per block take the harmonic mean along the direction's own axis and the
arithmetic (`np.nanmean`) mean across the other axis. -/
def coarsen_2d_permeability_grids (kx ky : List (List FV)) (bx bj : ℕ) (eps : ℚ) :
    Except GridError (List (List FV) × List (List FV)) :=
  if (kx.length, kx.map List.length) ≠ (ky.length, ky.map List.length) then
    .error .validationError
  else if bx < 1 ∨ bj < 1 then .error .validationError
  else
    .ok ((List.range ((kx.length + padAmount kx.length bx) / bx)).map fun bi =>
          (List.range (((kx.headD []).length
              + padAmount (kx.headD []).length bj) / bj)).map fun bj2 =>
            nanmeanFV (axisHarmX eps (block2 (pad2 kx bx bj .nan) bx bj bi bj2)),
        (List.range ((kx.length + padAmount kx.length bx) / bx)).map fun bi =>
          (List.range (((kx.headD []).length
              + padAmount (kx.headD []).length bj) / bj)).map fun bj2 =>
            nanmeanFV (axisHarmY eps (block2 (pad2 ky bx bj .nan) bx bj bi bj2)))

/-! ### Lemmas about the coarseners -/

theorem getD_map_range' {α : Type} (f : ℕ → α) (d : α) (n i : ℕ) (hi : i < n) :
    ((List.range n).map f).getD i d = f i := by
  rw [List.getD_eq_getElem _ _ (by simpa using hi), List.getElem_map, List.getElem_range]

theorem getD_replicate' {α : Type} (n i : ℕ) (h : i < n) (v d : α) :
    (List.replicate n v).getD i d = v := by
  rw [List.getD_eq_getElem _ _ (by simpa using h)]
  exact List.getElem_replicate ..

theorem recipEps_isNaN (eps : ℚ) (x : FV) : (recipEps eps x).isNaN = x.isNaN := by
  cases x with
  | fin q =>
      simp only [recipEps, FV.isNaN, FV.add, FV.div, Bool.false_eq_true, if_false]
      split_ifs with h1 h2 h3
      · exact absurd h2 one_ne_zero
      · rfl
      · rfl
      · rfl
  | nan => rfl
  | inf => rfl
  | ninf => rfl

theorem nansum_map_recip (eps : ℚ) (cells : List FV) :
    FV.nansum (cells.map (recipEps eps))
      = FV.sumList ((cells.filter (fun x => !x.isNaN)).map
          (fun x => FV.div (.fin 1) (FV.add x (.fin eps)))) := by
  rw [FV.nansum, List.filter_map]
  have hfc : cells.filter ((fun x => !x.isNaN) ∘ recipEps eps)
      = cells.filter (fun x => !x.isNaN) :=
    List.filter_congr (fun x _ => by
      simp only [Function.comp_apply, recipEps_isNaN])
  rw [hfc]
  congr 1
  refine List.map_congr_left (fun x hx => ?_)
  have hnn : x.isNaN = false := by
    have := List.of_mem_filter hx
    simpa using this
  rw [recipEps, hnn]
  simp

/-- The harmonic branch of `coarsen_grid` computes exactly the amended
claim's per-block formula. -/
theorem reduceBlock_harmonic_eq_spec (eps : ℚ) (cells : List FV) :
    reduceBlock .harmonic eps cells = harmonicSpec eps cells := by
  by_cases h0 : (cells.filter (fun x => !x.isNaN)).length = 0
  · simp only [reduceBlock, harmonicSpec, countNonNaN, h0, if_pos rfl]
    rfl
  · simp only [reduceBlock, harmonicSpec, countNonNaN, h0, if_false,
      nansum_map_recip]

/-- Entries of the padded array beyond the original extents equal the
sentinel. -/
theorem pad2_entry (data : List (List FV)) (bx bj : ℕ) (v : FV) (i j : ℕ)
    (hrect : ∀ r ∈ data, r.length = (data.headD []).length)
    (hi : i < data.length + padAmount data.length bx)
    (hj : j < (data.headD []).length + padAmount (data.headD []).length bj)
    (hout : data.length ≤ i ∨ (data.headD []).length ≤ j) :
    get2 (pad2 data bx bj v) i j = v := by
  rw [get2, pad2]
  set ny0 := (data.headD []).length with hny0
  set Y := ny0 + padAmount ny0 bj with hYdef
  rcases lt_or_ge i data.length with hilt | hige
  · have h1 : ((data.map fun r => r ++ List.replicate (Y - r.length) v)
        ++ List.replicate (padAmount data.length bx) (List.replicate Y v)).getD i []
        = data[i] ++ List.replicate (Y - data[i].length) v := by
      rw [List.getD_append _ _ _ _ (by simpa using hilt),
        List.getD_eq_getElem _ _ (by simpa using hilt), List.getElem_map]
    rw [h1]
    have hlen : data[i].length = ny0 := hrect _ (List.getElem_mem hilt)
    have hjge : ny0 ≤ j := by
      rcases hout with hcon | hok
      · omega
      · exact hok
    rw [List.getD_append_right _ _ _ _ (by omega)]
    exact getD_replicate' _ _ (by omega) _ _
  · have h1 : ((data.map fun r => r ++ List.replicate (Y - r.length) v)
        ++ List.replicate (padAmount data.length bx) (List.replicate Y v)).getD i []
        = List.replicate Y v := by
      rw [List.getD_append_right _ _ _ _ (by simpa using hige)]
      exact getD_replicate' _ _ (by simp; omega) _ _
    rw [h1]
    exact getD_replicate' _ _ (by omega) _ _

/-! ### Claims C5 and C6 -/

/-- The 4×4 layered permeability grid of the claim's concrete example
(`kx = ky = [[100]*4, [1]*4, [100]*4, [1]*4]`). -/
def exLayered : List (List FV) :=
  [[.fin 100, .fin 100, .fin 100, .fin 100], [.fin 1, .fin 1, .fin 1, .fin 1],
   [.fin 100, .fin 100, .fin 100, .fin 100], [.fin 1, .fin 1, .fin 1, .fin 1]]

/-- The exact harmonic-in-x block value of the example with `ε = 1e-10`:
`2 / (1/(100+ε) + 1/(1+ε) + ε)` (the Cardwell–Parsons value, ≈ 1.9802). -/
def vStar : ℚ :=
  2 / (1 / (100 + 1 / 10000000000) + 1 / (1 + 1 / 10000000000) + 1 / 10000000000)

/-- First component of a successful permeability-coarsening result. -/
def okxOf (r : Except GridError (List (List FV) × List (List FV))) : List (List FV) :=
  match r with
  | .ok p => p.1
  | .error _ => []

/-- C5: each directional coarse permeability is Cardwell–Parsons averaged —
for every output block the harmonic mean is taken along the direction's own
axis (`_axis_harmonic_mean`) and the arithmetic `nanmean` across the
remaining axis; and on the 4×4 layered grid with block `(2, 2)` every
`kx_coarse` block equals `2/(1/(100+ε) + 1/(1+ε) + ε)`, which lies within
0.001 of `200/101 ≈ 1.9802` and is *not* the arithmetic mean `50.5`. -/
theorem C5_cardwell_parsons :
    (∀ (kx ky : List (List FV)) (bx bj : ℕ) (eps : ℚ)
        (okx oky : List (List FV)) (bi bj2 : ℕ),
        coarsen_2d_permeability_grids kx ky bx bj eps = .ok (okx, oky) →
        bi < (kx.length + padAmount kx.length bx) / bx →
        bj2 < ((kx.headD []).length + padAmount (kx.headD []).length bj) / bj →
        get2 okx bi bj2
            = nanmeanFV (axisHarmX eps (block2 (pad2 kx bx bj .nan) bx bj bi bj2))
          ∧ get2 oky bi bj2
            = nanmeanFV (axisHarmY eps (block2 (pad2 ky bx bj .nan) bx bj bi bj2)))
      ∧ okxOf (coarsen_2d_permeability_grids exLayered exLayered 2 2 (1 / 10000000000))
          = [[.fin vStar, .fin vStar], [.fin vStar, .fin vStar]]
      ∧ 19801 / 10000 < vStar ∧ vStar < 19803 / 10000 ∧ vStar ≠ 101 / 2 := by
  constructor
  · intro kx ky bx bj eps okx oky bi bj2 h hbi hbj2
    rw [coarsen_2d_permeability_grids] at h
    by_cases hv1 : (kx.length, kx.map List.length) = (ky.length, ky.map List.length)
    swap
    · rw [if_pos hv1] at h
      exact absurd h (by simp)
    rw [if_neg (not_not_intro hv1)] at h
    by_cases hv2 : bx < 1 ∨ bj < 1
    · rw [if_pos hv2] at h
      exact absurd h (by simp)
    rw [if_neg hv2] at h
    simp only [Except.ok.injEq, Prod.mk.injEq] at h
    obtain ⟨h1, h2⟩ := h
    rw [← h1, ← h2, get2, getD_map_range' _ _ _ _ hbi, getD_map_range' _ _ _ _ hbj2,
      get2, getD_map_range' _ _ _ _ hbi, getD_map_range' _ _ _ _ hbj2]
    exact ⟨rfl, rfl⟩
  refine ⟨?_, by norm_num [vStar], by norm_num [vStar], by norm_num [vStar]⟩
  have hpad : pad2 exLayered 2 2 .nan = exLayered := by
    norm_num [pad2, exLayered, padAmount]
  have hblk : ∀ bi bj2, bi < 2 → bj2 < 2 →
      block2 exLayered 2 2 bi bj2 = [[.fin 100, .fin 100], [.fin 1, .fin 1]] := by
    intro bi bj2 hbi hbj2
    interval_cases bi <;> interval_cases bj2 <;>
      norm_num [block2, get2, exLayered, List.range_succ]
  have hcol : axisHarmCell (1 / 10000000000) [FV.fin 100, FV.fin 1] = .fin vStar := by
    norm_num [axisHarmCell, countNonNaN, recipEps, FV.nansum, FV.sumList, FV.add,
      FV.div, FV.isNaN, FV.isInf, vStar]
  have hax : axisHarmX (1 / 10000000000) [[FV.fin 100, FV.fin 100], [FV.fin 1, FV.fin 1]]
      = [.fin vStar, .fin vStar] := by
    simp only [axisHarmX, List.headD_cons, List.length_cons, List.length_nil,
      List.range_succ, List.range_zero, List.map_cons, List.map_nil, List.map_append,
      List.nil_append, List.cons_append, List.getD_cons_zero, List.getD_cons_succ]
    rw [hcol]
  have hmean : nanmeanFV [FV.fin vStar, FV.fin vStar] = .fin vStar := by
    simp only [nanmeanFV, FV.nansum, FV.sumList, countNonNaN, FV.isNaN, FV.add, FV.div,
      List.filter, List.foldr, List.length_cons, List.length_nil]
    norm_num
  have hb00 := hblk 0 0 (by norm_num) (by norm_num)
  have hb01 := hblk 0 1 (by norm_num) (by norm_num)
  have hb10 := hblk 1 0 (by norm_num) (by norm_num)
  have hb11 := hblk 1 1 (by norm_num) (by norm_num)
  have hlen4 : exLayered.length = 4 := rfl
  have hhead4 : (exLayered.headD []).length = 4 := rfl
  have hpa : padAmount 4 2 = 0 := by norm_num [padAmount]
  have hdiv : (4 + 0) / 2 = 2 := by norm_num
  unfold coarsen_2d_permeability_grids
  rw [if_neg (not_not_intro rfl), if_neg (by norm_num)]
  simp only [okxOf, hpad, hlen4, hhead4, hpa, hdiv, List.range_succ, List.range_zero,
    List.map_cons, List.map_nil, List.map_append, List.nil_append, List.cons_append,
    hb00, hb01, hb10, hb11, hax, hmean]

/-- C5 witness: the block decomposition applied to a concrete 1×1 run. -/
theorem C5_witness :
    coarsen_2d_permeability_grids [[FV.fin 1]] [[FV.fin 1]] 1 1 1
        = .ok ([[FV.fin (2 / 3)]], [[FV.fin (2 / 3)]])
      ∧ 0 < (([[FV.fin 1]] : List (List FV)).length
          + padAmount ([[FV.fin 1]] : List (List FV)).length 1) / 1
      ∧ 0 < ((([[FV.fin 1]] : List (List FV)).headD []).length
          + padAmount (([[FV.fin 1]] : List (List FV)).headD []).length 1) / 1
      ∧ (get2 [[FV.fin (2 / 3)]] 0 0
            = nanmeanFV (axisHarmX 1 (block2 (pad2 [[FV.fin 1]] 1 1 .nan) 1 1 0 0))
          ∧ get2 [[FV.fin (2 / 3)]] 0 0
            = nanmeanFV (axisHarmY 1 (block2 (pad2 [[FV.fin 1]] 1 1 .nan) 1 1 0 0))) := by
  have hpadw : pad2 [[FV.fin 1]] 1 1 .nan = [[FV.fin 1]] := by
    norm_num [pad2, padAmount]
  have hblkw : block2 [[FV.fin 1]] 1 1 0 0 = [[FV.fin 1]] := by
    norm_num [block2, get2, List.range_succ, List.range_zero]
  have hcellw : axisHarmCell 1 [FV.fin 1] = .fin (2 / 3) := by
    norm_num [axisHarmCell, countNonNaN, recipEps, FV.nansum, FV.sumList, FV.add,
      FV.div, FV.isNaN, FV.isInf]
  have haxw : axisHarmX 1 [[FV.fin 1]] = [.fin (2 / 3)] := by
    simp only [axisHarmX, List.headD_cons, List.length_cons, List.length_nil,
      List.range_succ, List.range_zero, List.map_cons, List.map_nil, List.map_append,
      List.nil_append, List.cons_append, List.getD_cons_zero]
    rw [hcellw]
  have hayw : axisHarmY 1 [[FV.fin 1]] = [.fin (2 / 3)] := by
    simp only [axisHarmY, List.map_cons, List.map_nil]
    rw [hcellw]
  have hmw : nanmeanFV [FV.fin (2 / 3)] = .fin (2 / 3) := by
    simp only [nanmeanFV, FV.nansum, FV.sumList, countNonNaN, FV.isNaN, FV.add,
      FV.div, List.filter, List.foldr, List.length_cons, List.length_nil]
    norm_num
  have hpa1 : padAmount 1 1 = 0 := by norm_num [padAmount]
  have hd1 : (1 + 0) / 1 = 1 := by norm_num
  have hcoarse : coarsen_2d_permeability_grids [[FV.fin 1]] [[FV.fin 1]] 1 1 1
      = .ok ([[FV.fin (2 / 3)]], [[FV.fin (2 / 3)]]) := by
    unfold coarsen_2d_permeability_grids
    rw [if_neg (not_not_intro rfl), if_neg (by norm_num)]
    simp only [List.length_cons, List.length_nil, List.headD_cons, hpa1, hd1,
      List.range_succ, List.range_zero, List.map_cons, List.map_nil, List.map_append,
      List.nil_append, List.cons_append, hpadw, hblkw, haxw, hayw, hmw]
  refine ⟨hcoarse, by norm_num [padAmount], by norm_num [padAmount], ?_⟩
  exact C5_cardwell_parsons.1 [[FV.fin 1]] [[FV.fin 1]] 1 1 1 [[FV.fin (2 / 3)]]
    [[FV.fin (2 / 3)]] 0 0 hcoarse (by norm_num [padAmount]) (by norm_num [padAmount])

/-- C6, counterexample to the claim as stated: the block `[inf]` has zero
*finite* values, yet the harmonic coarsening yields `0.0`, not NaN — the code
counts non-NaN (not finite) values, so `counts = 1`, the reciprocal of `inf`
is 0, `1 / 0 = inf`, and the infinity clamp turns it into 0. -/
theorem C6_counterexample :
    coarsen_grid2 [[FV.inf]] 1 1 .harmonic (1 / 10000000000) = [[FV.fin 0]]
      ∧ (([FV.inf] : List FV).filter (fun x => x.isFinite)).length = 0
      ∧ FV.fin 0 ≠ FV.nan := by
  refine ⟨?_, rfl, fun h => FV.noConfusion h⟩
  norm_num [coarsen_grid2, padAmount, pad2, padValue, blockCells, get2, reduceBlock,
    countNonNaN, recipEps, FV.nansum, FV.sumList, FV.add, FV.div, FV.isNaN, FV.isInf,
    List.range_succ, List.range_zero]

/-- C6, amended: `coarsen_grid` pads non-full blocks with NaN for
`mean`/`min`/`max`/`harmonic` and with `0.0` for `sum`; and its harmonic
method computes, for every block with `n` *non-NaN* values (the code counts
`~np.isnan`, so infinities are counted), `n / Σ 1/(xᵢ+ε)` with `ε` the
`epsilon` argument (default `1e-10`); a block with zero non-NaN values yields
NaN, and an infinite result is clamped to 0. -/
theorem C6_amended :
    (padValue .mean = .nan ∧ padValue .max = .nan ∧ padValue .min = .nan
      ∧ padValue .harmonic = .nan ∧ padValue .sum = .fin 0)
    ∧ (∀ (data : List (List FV)) (bx bj : ℕ) (v : FV) (i j : ℕ),
        (∀ r ∈ data, r.length = (data.headD []).length) →
        i < data.length + padAmount data.length bx →
        j < (data.headD []).length + padAmount (data.headD []).length bj →
        (data.length ≤ i ∨ (data.headD []).length ≤ j) →
        get2 (pad2 data bx bj v) i j = v)
    ∧ (∀ (eps : ℚ) (cells : List FV),
        reduceBlock .harmonic eps cells = harmonicSpec eps cells)
    ∧ (∀ (data : List (List FV)) (bx bj : ℕ) (eps : ℚ) (bi bj2 : ℕ),
        bi < (data.length + padAmount data.length bx) / bx →
        bj2 < ((data.headD []).length + padAmount (data.headD []).length bj) / bj →
        get2 (coarsen_grid2 data bx bj .harmonic eps) bi bj2
          = harmonicSpec eps
              (blockCells (pad2 data bx bj (padValue .harmonic)) bx bj bi bj2)) := by
  refine ⟨⟨rfl, rfl, rfl, rfl, rfl⟩, ?_, reduceBlock_harmonic_eq_spec, ?_⟩
  · intro data bx bj v i j hrect hi hj hout
    exact pad2_entry data bx bj v i j hrect hi hj hout
  intro data bx bj eps bi bj2 hbi hbj2
  rw [get2, coarsen_grid2]
  rw [getD_map_range' _ _ _ _ hbi, getD_map_range' _ _ _ _ hbj2,
    reduceBlock_harmonic_eq_spec]

/-- C6 witness: a padded entry of a concrete 1×1 array coarsened with 2×2
blocks is the NaN sentinel. -/
theorem C6_witness :
    (∀ r ∈ ([[FV.fin 5]] : List (List FV)), r.length
        = (([[FV.fin 5]] : List (List FV)).headD []).length)
      ∧ 1 < ([[FV.fin 5]] : List (List FV)).length
          + padAmount ([[FV.fin 5]] : List (List FV)).length 2
      ∧ 1 < (([[FV.fin 5]] : List (List FV)).headD []).length
          + padAmount (([[FV.fin 5]] : List (List FV)).headD []).length 2
      ∧ (([[FV.fin 5]] : List (List FV)).length ≤ 1
          ∨ (([[FV.fin 5]] : List (List FV)).headD []).length ≤ 1)
      ∧ get2 (pad2 [[FV.fin 5]] 2 2 FV.nan) 1 1 = FV.nan :=
  ⟨by simp, by norm_num [padAmount], by norm_num [padAmount], Or.inl (by simp),
    C6_amended.2.1 [[FV.fin 5]] 2 2 FV.nan 1 1 (by simp) (by norm_num [padAmount])
      (by norm_num [padAmount]) (Or.inl (by simp))⟩

/-! ### Claims C7, C8, C9, C10 -/

/-- C7, counterexample: the claim that `depth[i,j,k] + elevation[i,j,nz-1-k]`
is the same for every `k` fails already for the uniform one-column thickness
grid `[[[1, 1]]]` (nz = 2): at `k = 0` the quantity is `1/2 + 1/2 = 1`, at
`k = 1` it is `3/2 + 3/2 = 3`. -/
theorem C7_counterexample :
    resultAt3 (build_depth_grid (.g3 [[[1, 1]]])) 0 0 0
        + resultAt3 (build_elevation_grid (.g3 [[[1, 1]]])) 0 0 1
      ≠ resultAt3 (build_depth_grid (.g3 [[[1, 1]]])) 0 0 1
        + resultAt3 (build_elevation_grid (.g3 [[[1, 1]]])) 0 0 0 := by
  simp only [resultAt3, build_depth_grid, build_elevation_grid, buildElevationGridAux,
    depthCol, depthScan, elevCol, List.reverse_cons, List.reverse_nil, List.nil_append,
    List.cons_append, List.map_cons, List.map_nil, List.getD_cons_zero, List.getD_cons_succ]
  norm_num

/-- C7, amended: for every 3-D thickness grid and fixed column `(i, j)`, the
quantity `depth[i,j,k] + elevation[i,j,k]` (same `k`, no reflection) is the
same for every `k` in range — both builders place cell `k`'s centre half a
cell away from the accumulated thickness on their respective side, so the sum
is the total column thickness. -/
theorem C7_amended (t : List (List (List ℚ))) (i j k k1 : ℕ)
    (hk : k < ((t.getD i []).getD j []).length)
    (hk1 : k1 < ((t.getD i []).getD j []).length) :
    resultAt3 (build_depth_grid (.g3 t)) i j k
        + resultAt3 (build_elevation_grid (.g3 t)) i j k
      = resultAt3 (build_depth_grid (.g3 t)) i j k1
        + resultAt3 (build_elevation_grid (.g3 t)) i j k1 := by
  rw [resultAt3_depth, resultAt3_depth, resultAt3_elev, resultAt3_elev,
    depthCol_add_elevCol _ _ hk, depthCol_add_elevCol _ _ hk1]

/-- C7 witness: the amended claim applied to the concrete thickness column
`[1, 3]` at `k = 0` and `k = 1` (both sums equal the column total `4`). -/
theorem C7_witness :
    0 < (([[[(1 : ℚ), 3]]].getD 0 []).getD 0 []).length ∧
    1 < (([[[(1 : ℚ), 3]]].getD 0 []).getD 0 []).length ∧
    resultAt3 (build_depth_grid (.g3 [[[1, 3]]])) 0 0 0
        + resultAt3 (build_elevation_grid (.g3 [[[1, 3]]])) 0 0 0
      = resultAt3 (build_depth_grid (.g3 [[[1, 3]]])) 0 0 1
        + resultAt3 (build_elevation_grid (.g3 [[[1, 3]]])) 0 0 1 :=
  ⟨by decide, by decide, C7_amended [[[1, 3]]] 0 0 0 1 (by decide) (by decide)⟩

/-- C8: the claim (and the function's own documentation) says the mask is
`True` exactly at the ghost cells; the code instead intersects per-axis
slices, so for `grid_shape = (1, 1)`, `pad_width = 1` the ghost cell `(0, 0)`
of the 3×3 padded array is *not* marked, while the single marked cell is
`(0, 2)`.  This records the divergence at that input. -/
theorem C8_code_divergence :
    get_pad_mask_val [1, 1] 1 [0, 0] = false
      ∧ isGhostCell [1, 1] 1 [0, 0] = true
      ∧ get_pad_mask_val [1, 1] 1 [0, 2] = true := by
  decide

/-- C9: for a 2-D grid shape with orientation X (or Y), `build_layered_grid`
passes its length validation but then executes `grid[i, :, :] = value` on a
2-D array, which raises a numpy `IndexError` ("too many indices") — not a
`ValidationError`, and no grid is returned, contradicting the claim that all
other inputs return a layered grid. -/
theorem C9_code_divergence :
    build_layered_grid (.s2 2 3) [1, 2] .X = .error .indexError
      ∧ build_layered_grid (.s2 2 3) [1, 2, 3] .Y = .error .indexError
      ∧ LayeredError.indexError ≠ LayeredError.validationError :=
  ⟨rfl, rfl, by decide⟩

/-- C10: both elevation builders unpack `thickness_grid.shape` into exactly
three components, so every 1-D or 2-D input fails with a shape-unpacking
exception (not a `ValidationError`) instead of returning a grid. -/
theorem C10_rank_check (x : List ℚ) (y : List (List ℚ)) :
    build_depth_grid (.g1 x) = .error .shapeUnpackError
      ∧ build_elevation_grid (.g1 x) = .error .shapeUnpackError
      ∧ build_depth_grid (.g2 y) = .error .shapeUnpackError
      ∧ build_elevation_grid (.g2 y) = .error .shapeUnpackError
      ∧ GridError.shapeUnpackError ≠ GridError.validationError :=
  ⟨rfl, rfl, rfl, rfl, by decide⟩

end Bores
